import Mathlib

set_option maxRecDepth 8000

/-!
A shallow embedding of the tic-tac-toe lobby/match server in `server.py`
(repository Net_Project).  Python lists become Lean lists, the board is a
list of rows of one-cell strings (" " is the empty cell), per-game state is
the `Game` structure, and the per-connection handler loop is modelled as a
pure step function over the session and server state.  Socket sends are
modelled as always succeeding, so `broadcast_collect_dead` never collects a
dead connection and `handle_dead_conns_after_send` is a no-op; the messages
produced by a handler are returned as a list of (connection, message) pairs
in send order.  A Python exception escaping a handler (for example
`int(None)`) is modelled explicitly: it runs the `finally` cleanup and
closes the connection.
-/

namespace NetProject

/-- A connection handle; the server identifies players by their socket object. -/
abbrev Conn := Nat

/-- The `Player` dataclass of `server.py`. -/
structure Player where
  conn : Conn
  name : String
  mark : String
  deriving Repr, DecidableEq

/-- The board built by `Game.__post_init__`: `board_size` rows of `board_size`
empty cells. -/
def emptyBoard (n : Nat) : List (List String) :=
  List.replicate n (List.replicate n " ")

/-- Reading `board[r][c]` (only used at indices that are in range). -/
def getCell (b : List (List String)) (r c : Nat) : String :=
  (b.getD r []).getD c " "

/-- Writing `board[r][c] = m`. -/
def setCell (b : List (List String)) (r c : Nat) (m : String) : List (List String) :=
  b.set r ((b.getD r []).set c m)

/-- The nested helper `in_bounds` of `check_winner_3_in_row`. -/
def in_bounds (n : Nat) (r c : Int) : Bool :=
  0 ≤ r && r < (n : Int) && 0 ≤ c && c < (n : Int)

/-- The direction list of `check_winner_3_in_row`. -/
def directions : List (Int × Int) :=
  [(0, 1), (1, 0), (1, 1), (1, -1)]

/-- The inner `for k in range(1, target)` loop of `check_winner_3_in_row` with
`target = 3`: both forward cells are on the board and hold `mark`. -/
def lineOk (b : List (List String)) (n : Nat) (mark : String) (r c : Nat) (dr dc : Int) : Bool :=
  ([1, 2] : List Int).all fun k =>
    in_bounds n ((r : Int) + dr * k) ((c : Int) + dc * k) &&
      (getCell b ((r : Int) + dr * k).toNat ((c : Int) + dc * k).toNat == mark)

/-- The body of the scan of `check_winner_3_in_row` at one cell: skip an empty
cell, otherwise try the four directions in order and return the cell mark on
the first complete line. -/
def cellScan (b : List (List String)) (n : Nat) (r c : Nat) : Option String :=
  if getCell b r c = " " then none
  else directions.findSome? fun d =>
    if lineOk b n (getCell b r c) r c d.1 d.2 then some (getCell b r c) else none

/-- `check_winner_3_in_row` from `server.py`: position-major scan over all
cells, returning the first winning mark found. -/
def check_winner_3_in_row (b : List (List String)) : Option String :=
  (List.range b.length).findSome? fun r =>
    (List.range b.length).findSome? fun c => cellScan b b.length r c

/-- `board_full` from `server.py`. -/
def board_full (b : List (List String)) : Bool :=
  b.all fun row => row.all fun cell => cell != " "

/-- The `Game` dataclass (its `threading.Lock` is not data). -/
structure Game where
  game_id : String
  max_players : Nat
  board_size : Nat
  creator : String
  players : List Player
  board : List (List String)
  turn_index : Nat
  status : String
  deriving Repr, DecidableEq

/-- The dictionary produced by `Game.snapshot`. -/
structure Snapshot where
  id : String
  creator : String
  players : List (String × String)
  max_players : Nat
  board_size : Nat
  board : List (List String)
  turn : Option String
  status : String
  deriving Repr, DecidableEq

/-- `Game.snapshot`: `turn` is `players[turn_index].mark` when the player list
is non-empty (under the turn-index invariant the index is in range). -/
def Game.snapshot (g : Game) : Snapshot :=
  { id := g.game_id
    creator := g.creator
    players := g.players.map fun p => (p.name, p.mark)
    max_players := g.max_players
    board_size := g.board_size
    board := g.board
    turn := (g.players.get? g.turn_index).map Player.mark
    status := g.status }

/-- `MARKS_BY_COUNT` from `server.py`.  The source file stores the third mark
of the three-player alphabet as the two-character sequence "Î”" (bytes
C3 8E E2 80 9D), a mojibake rendering of the letter Delta. -/
def MARKS_BY_COUNT (n : Nat) : List String :=
  if n = 2 then ["X", "O"]
  else if n = 3 then ["X", "O", "Î”"]
  else []

/-- `TicTacToeServer.create_game`; the uuid-derived id is an input. -/
def create_game (max_players : Nat) (creator : String) (game_id : String) : Game :=
  { game_id := game_id
    max_players := max_players
    board_size := max_players + 1
    creator := creator
    players := []
    board := emptyBoard (max_players + 1)
    turn_index := 0
    status := "WAITING" }

/-- One entry of the `GAMES` reply built by `TicTacToeServer.list_games`. -/
structure GameSummary where
  id : String
  players : Nat
  max : Nat
  status : String
  creator : String
  deriving Repr, DecidableEq

/-- The server-to-client messages of the wire protocol. -/
inductive OutMsg where
  | WELCOME (msg : String)
  | OK (msg : String) (game_id : Option String)
  | ERR (msg hint : String)
  | GAMES (games : List GameSummary)
  | JOINED (msg : String) (youName youMark : String) (state : Snapshot)
  | WAIT (msg : String) (state : Snapshot)
  | START (msg : String) (state : Snapshot)
  | GAME_UPDATE (msg : Option String) (state : Snapshot)
  | END (winner : Option String) (msg : String) (state : Snapshot)
  deriving Repr, DecidableEq

/-- The snapshot carried by a message, when it carries one. -/
def stateOf : OutMsg → Option Snapshot
  | OutMsg.JOINED _ _ _ st => some st
  | OutMsg.WAIT _ st => some st
  | OutMsg.START _ st => some st
  | OutMsg.GAME_UPDATE _ st => some st
  | OutMsg.END _ _ st => some st
  | _ => none

/-- Whether a message is an `ERR` reply. -/
def isErr : OutMsg → Bool
  | OutMsg.ERR _ _ => true
  | _ => false

/-- `remove_player_from_game`: drop every player owning `conn`, report the
departed name (the last match, as the loop overwrites it), and re-index
`turn_index` modulo the new player count (0 when the list empties). -/
def remove_player_from_game (g : Game) (conn : Conn) : Game × Option String :=
  let left_name := (g.players.reverse.find? fun p => p.conn == conn).map Player.name
  let new_players := g.players.filter fun p => p.conn != conn
  let ti := if new_players.isEmpty then 0 else g.turn_index % new_players.length
  ({ g with players := new_players, turn_index := ti }, left_name)

/-- `close_game_for_all`: force FINISHED and send one `END` notice (winner
field None) to every remaining player.  With sends always succeeding,
`handle_dead_conns_after_send` does nothing afterwards. -/
def close_game_for_all (g : Game) (reason : String) : Game × List (Conn × OutMsg) :=
  let g2 := { g with status := "FINISHED" }
  (g2, g2.players.map fun p => (p.conn, OutMsg.END none reason g2.snapshot))

/-- The leave/disconnect logic, identical in the `LEAVE` handler and in the
`finally` cleanup of `client_thread`: remove the player; if the game was
WAITING or RUNNING and at least one player remains, close it for everyone,
otherwise force FINISHED silently.  `verb` is "left" or "disconnected". -/
def gameLeave (g : Game) (conn : Conn) (verb : String) : Game × List (Conn × OutMsg) :=
  let rm := remove_player_from_game g conn
  let left := rm.2.getD "player"
  if (rm.1.status = "WAITING" ∨ rm.1.status = "RUNNING") ∧ rm.1.players ≠ [] then
    close_game_for_all rm.1 ("Player " ++ left ++ " " ++ verb ++ ". Game ended.")
  else
    ({ rm.1 with status := "FINISHED" }, [])

/-- The body of the `JOIN` handler under the game lock (`server.py` 334-377).
On success: the updated game, the appended `Player`, and all messages sent in
order (`JOINED` to the joiner, `GAME_UPDATE` to the others, then `START` or
`WAIT` to everyone). -/
def handleJoin (g : Game) (conn : Conn) (client_name : String) :
    Except (String × String) (Game × Player × List (Conn × OutMsg)) :=
  if g.status ≠ "WAITING" then
    Except.error ("Game already started/finished.", "Use LIST to find a WAITING game.")
  else if g.max_players ≤ g.players.length then
    Except.error ("Game is full.", "Use LIST and join another game.")
  else
    let mark := (MARKS_BY_COUNT g.max_players).getD g.players.length ""
    let p : Player := { conn := conn, name := client_name, mark := mark }
    let g1 := { g with players := g.players ++ [p] }
    let is_full := g1.players.length = g1.max_players
    let g2 := if is_full then { g1 with status := "RUNNING", turn_index := 0 } else g1
    let snap := g2.snapshot
    let joined :=
      (conn, OutMsg.JOINED ("Joined game " ++ g.game_id ++ " as " ++ mark ++ ".")
        client_name mark snap)
    let updates := (g2.players.filter fun q => q.conn != conn).map fun q =>
      (q.conn, OutMsg.GAME_UPDATE (some (client_name ++ " joined as " ++ mark ++ ".")) snap)
    let finals :=
      if is_full then
        g2.players.map fun q => (q.conn, OutMsg.START "Game started! X plays first." snap)
      else
        g2.players.map fun q => (q.conn, OutMsg.WAIT "Waiting for more players..." snap)
    Except.ok (g2, p, joined :: updates ++ finals)

/-- The game after a `JOIN` attempt (unchanged when the join is rejected). -/
def joinGame (g : Game) (conn : Conn) (nm : String) : Game :=
  match handleJoin g conn nm with
  | Except.ok res => res.1
  | Except.error _ => g

/-- The messages sent by a `JOIN` attempt (none when it is rejected). -/
def joinMsgs (g : Game) (conn : Conn) (nm : String) : List (Conn × OutMsg) :=
  match handleJoin g conn nm with
  | Except.ok res => res.2.2
  | Except.error _ => []

/-- A JSON value found in a request field. -/
inductive JVal where
  | jnum (n : Int)
  | jstr (s : String)
  | jnull
  | jbad
  deriving Repr, DecidableEq

/-- Python `int(x)` applied to `msg.get(field)`: `int(None)` raises
`TypeError`, `int` of a non-numeric string raises `ValueError`; JSON numbers
are modelled as integers. -/
def pyInt : Option JVal → Except String Int
  | none => Except.error "TypeError"
  | some JVal.jnull => Except.error "TypeError"
  | some (JVal.jnum n) => Except.ok n
  | some (JVal.jstr s) =>
      match s.toInt? with
      | some n => Except.ok n
      | none => Except.error "ValueError"
  | some JVal.jbad => Except.error "TypeError"

/-- Python `int(msg.get(field, d))`: the default is used only when the field
is absent. -/
def pyIntD (v : Option JVal) (d : Int) : Except String Int :=
  match v with
  | none => Except.ok d
  | some w => pyInt (some w)

/-- Result of the `MOVE` handler body: an `ERR` reply followed by `continue`
(no state touched), a Python exception escaping the handler, or a completed
move falling through to the post-lock registry check. -/
inductive MoveRes where
  | errReply (msg hint : String)
  | raised (e : String)
  | completed (g2 : Game) (msgs : List (Conn × OutMsg))
  deriving Repr, DecidableEq

/-- The body of the `MOVE` handler under the game lock (`server.py` 410-440)
for the session whose player is `p`.  The checks run in source order: status,
turn (with the raw `players[turn_index]` access), then `int()` parsing of the
row and column, bounds, occupancy; a successful write is followed by the win
check, then the draw check, else the turn advance and a broadcast. -/
def handleMove (g : Game) (p : Player) (rowv colv : Option JVal) : MoveRes :=
  if g.status ≠ "RUNNING" then
    MoveRes.errReply "Game not running." "Wait for START or JOIN another game."
  else if g.players.isEmpty then
    MoveRes.errReply "Not your turn." "Allowed while waiting: INFO or LEAVE (or QUIT)."
  else
    match g.players.get? g.turn_index with
    | none => MoveRes.raised "IndexError"
    | some q =>
      if q.mark ≠ p.mark then
        MoveRes.errReply "Not your turn." "Allowed while waiting: INFO or LEAVE (or QUIT)."
      else
        match pyInt rowv with
        | Except.error e => MoveRes.raised e
        | Except.ok r =>
          match pyInt colv with
          | Except.error e => MoveRes.raised e
          | Except.ok c =>
            if ¬ (0 ≤ r ∧ r < (g.board_size : Int) ∧ 0 ≤ c ∧ c < (g.board_size : Int)) then
              MoveRes.errReply "Out of bounds."
                ("Use row/col in range 0.." ++ toString (g.board_size - 1) ++ ".")
            else if getCell g.board r.toNat c.toNat ≠ " " then
              MoveRes.errReply "Cell is not empty." "Choose a different empty cell."
            else
              let b2 := setCell g.board r.toNat c.toNat p.mark
              match check_winner_3_in_row b2 with
              | some w =>
                let cg := close_game_for_all { g with board := b2 } ("Winner: " ++ w)
                MoveRes.completed cg.1 cg.2
              | none =>
                if board_full b2 then
                  let cg := close_game_for_all { g with board := b2 } "Draw."
                  MoveRes.completed cg.1 cg.2
                else
                  let g2 :=
                    { g with board := b2, turn_index := (g.turn_index + 1) % g.players.length }
                  MoveRes.completed g2
                    (g2.players.map fun q2 => (q2.conn, OutMsg.GAME_UPDATE none g2.snapshot))

/-- Per-connection state of `client_thread`: the name reservation flag, the
reserved name, and the current game membership.  The Python `current_game` is
a reference to the shared `Game` object; here the session holds the value and
every mutation is written back to the registry (see `registryUpdate`). -/
structure SessionSt where
  name_registered : Bool
  client_name : Option String
  current_game : Option Game
  player : Option Player
  deriving Repr, DecidableEq

/-- Process-wide state: the game registry (a dict, modelled as an insertion
ordered association list) and the set of reserved names. -/
structure ServerSt where
  games : List (String × Game)
  active_names : List String
  deriving Repr, DecidableEq

/-- Python dict assignment `games[id] = g`: overwrite in place when the key
is present, else append. -/
def registryInsert (gs : List (String × Game)) (id : String) (g : Game) :
    List (String × Game) :=
  if gs.any fun e => e.1 == id then
    gs.map fun e => if e.1 == id then (id, g) else e
  else gs ++ [(id, g)]

/-- Write-back of a mutation made through a shared `Game` reference: entries
holding this id now see the new value; an unregistered game is not re-added. -/
def registryUpdate (gs : List (String × Game)) (id : String) (g : Game) :
    List (String × Game) :=
  gs.map fun e => if e.1 == id then (id, g) else e

/-- `games.pop(id, None)`. -/
def registryRemove (gs : List (String × Game)) (id : String) : List (String × Game) :=
  gs.filter fun e => e.1 != id

/-- `games.get(id)`. -/
def registryGet (gs : List (String × Game)) (id : String) : Option Game :=
  (gs.find? fun e => e.1 == id).map Prod.snd

/-- `TicTacToeServer.list_games`: summaries of WAITING games only. -/
def list_games (gs : List (String × Game)) : List GameSummary :=
  (gs.filter fun e => e.2.status == "WAITING").map fun e =>
    { id := e.2.game_id
      players := e.2.players.length
      max := e.2.max_players
      status := e.2.status
      creator := e.2.creator }

/-- Python `str.strip()`: drop leading and trailing whitespace (written over
character lists so that it evaluates inside the kernel). -/
def pyStrip (s : String) : String :=
  String.mk ((s.toList.dropWhile Char.isWhitespace).reverse.dropWhile Char.isWhitespace).reverse

/-- The client-to-server messages of the wire protocol; a field is `none`
when absent from the JSON object. -/
inductive InMsg where
  | HELLO (name : Option String)
  | LIST
  | CREATE (players : Option JVal)
  | JOIN (game_id : Option String)
  | INFO
  | LEAVE
  | MOVE (row col : Option JVal)
  | QUIT
  | BAD_JSON
  | UNKNOWN (t : String)
  deriving Repr, DecidableEq

/-- Result of one iteration of the `client_thread` loop: the messages sent
(in order, with their destination connection), the new session and server
state, and whether the connection is still open afterwards. -/
structure StepOut where
  msgs : List (Conn × OutMsg)
  sess : SessionSt
  srv : ServerSt
  connOpen : Bool
  deriving Repr, DecidableEq

/-- An `err(conn, msg, hint)` reply followed by `continue`: one `ERR` to the
sender, nothing mutated, connection open. -/
def errReply (conn : Conn) (sess : SessionSt) (srv : ServerSt) (msg hint : String) : StepOut :=
  { msgs := [(conn, OutMsg.ERR msg hint)], sess := sess, srv := srv, connOpen := true }

/-- The `finally` cleanup of `client_thread` (lines 459-478): if the session
was in a game, run the disconnect departure; then release the reserved
name.  Returns the notices sent and the new server state. -/
def teardown (conn : Conn) (sess : SessionSt) (srv : ServerSt) :
    List (Conn × OutMsg) × ServerSt :=
  let part :=
    match sess.current_game, sess.player with
    | some g, some _ =>
      let lv := gameLeave g conn "disconnected"
      let gs1 := registryUpdate srv.games lv.1.game_id lv.1
      (lv.2, if lv.1.players.isEmpty then registryRemove gs1 lv.1.game_id else gs1)
    | _, _ => ([], srv.games)
  let names :=
    if sess.name_registered ∧ (sess.client_name.getD "") ≠ "" then
      srv.active_names.filter fun s => s ≠ sess.client_name.getD ""
    else srv.active_names
  (part.1, { games := part.2, active_names := names })

/-- A Python exception escaping the handler: no reply to the sender, the
`finally` cleanup runs, the connection closes. -/
def crashStep (conn : Conn) (sess : SessionSt) (srv : ServerSt) : StepOut :=
  let td := teardown conn sess srv
  { msgs := td.1, sess := sess, srv := td.2, connOpen := false }

/-- One iteration of the `client_thread` dispatch loop (`server.py` 274-454)
for the connection `conn`; `freshId` is the uuid-derived id a `CREATE` would
allocate. -/
def clientStep (conn : Conn) (freshId : String) (sess : SessionSt) (srv : ServerSt) :
    InMsg → StepOut
  | InMsg.HELLO name =>
    if sess.name_registered then
      errReply conn sess srv "Name already set." "Continue in lobby (LIST/CREATE/JOIN) or QUIT."
    else
      let proposed := pyStrip (name.getD "")
      if proposed = "" then
        errReply conn sess srv "Name cannot be empty." "Enter a non-empty name."
      else if proposed ∈ srv.active_names then
        errReply conn sess srv "Name already exists." "Please choose a different name."
      else
        { msgs := [(conn, OutMsg.OK ("Hello " ++ proposed ++ ".") none)]
          sess := { sess with name_registered := true, client_name := some proposed }
          srv := { srv with active_names := srv.active_names ++ [proposed] }
          connOpen := true }
  | InMsg.LIST =>
    { msgs := [(conn, OutMsg.GAMES (list_games srv.games))]
      sess := sess, srv := srv, connOpen := true }
  | InMsg.CREATE pv =>
    if ¬ sess.name_registered ∨ (sess.client_name.getD "") = "" then
      errReply conn sess srv "You must set a unique name first." "Send HELLO with your chosen name."
    else if sess.current_game.isSome then
      errReply conn sess srv "Already in a game." "Use LEAVE to return to lobby, then CREATE again."
    else
      match pyIntD pv 2 with
      | Except.error _ => crashStep conn sess srv
      | Except.ok mp =>
        if mp ≠ 2 ∧ mp ≠ 3 then
          errReply conn sess srv "Only 2 or 3 players supported." "Use: CREATE 2  or  CREATE 3"
        else
          let g := create_game mp.toNat (sess.client_name.getD "") freshId
          { msgs := [(conn, OutMsg.OK "Game created." (some g.game_id))]
            sess := sess
            srv := { srv with games := registryInsert srv.games g.game_id g }
            connOpen := true }
  | InMsg.JOIN gid =>
    if ¬ sess.name_registered ∨ (sess.client_name.getD "") = "" then
      errReply conn sess srv "You must set a unique name first." "Send HELLO with your chosen name."
    else if sess.current_game.isSome then
      errReply conn sess srv "Already in a game." "Use LEAVE to return to lobby, then JOIN another game."
    else if (gid.getD "") = "" then
      errReply conn sess srv "Missing game_id." "Use JOIN <id> (Tip: use LIST)."
    else
      match registryGet srv.games (gid.getD "") with
      | none => errReply conn sess srv "Game not found." "Use LIST to get a valid id."
      | some g =>
        match handleJoin g conn (sess.client_name.getD "") with
        | Except.error eh => errReply conn sess srv eh.1 eh.2
        | Except.ok res =>
          { msgs := res.2.2
            sess := { sess with current_game := some res.1, player := some res.2.1 }
            srv := { srv with games := registryUpdate srv.games res.1.game_id res.1 }
            connOpen := true }
  | InMsg.INFO =>
    { msgs := [(conn, OutMsg.OK "Use client-side INFO for commands." none)]
      sess := sess, srv := srv, connOpen := true }
  | InMsg.LEAVE =>
    match sess.current_game, sess.player with
    | some g, some _ =>
      let lv := gameLeave g conn "left"
      let gs1 := registryUpdate srv.games lv.1.game_id lv.1
      let gs2 := if lv.1.players.isEmpty then registryRemove gs1 lv.1.game_id else gs1
      { msgs := lv.2 ++ [(conn, OutMsg.OK "Left game. You can LIST/CREATE/JOIN again." none)]
        sess := { sess with current_game := none, player := none }
        srv := { srv with games := gs2 }
        connOpen := true }
    | _, _ => errReply conn sess srv "Not in a game." "Use LIST/CREATE/JOIN first."
  | InMsg.MOVE rv cv =>
    match sess.current_game, sess.player with
    | some g, some p =>
      match handleMove g p rv cv with
      | MoveRes.errReply m h => errReply conn sess srv m h
      | MoveRes.raised _ => crashStep conn sess srv
      | MoveRes.completed g2 ms =>
        let gs1 := registryUpdate srv.games g2.game_id g2
        let gs2 :=
          if g2.status = "FINISHED" ∧ g2.players.isEmpty then registryRemove gs1 g2.game_id
          else gs1
        { msgs := ms
          sess := { sess with current_game := some g2 }
          srv := { srv with games := gs2 }
          connOpen := true }
    | _, _ => errReply conn sess srv "Not in a game." "JOIN a game first."
  | InMsg.QUIT =>
    let td := teardown conn sess srv
    { msgs := (conn, OutMsg.OK "Bye" none) :: td.1
      sess := sess, srv := td.2, connOpen := false }
  | InMsg.BAD_JSON =>
    errReply conn sess srv "Bad message format (invalid JSON)." "Try again."
  | InMsg.UNKNOWN t =>
    errReply conn sess srv ("Unknown type " ++ t) "Use LIST/CREATE/JOIN/MOVE/LEAVE/QUIT."

/-- One player-visible operation on a single match, as seen by the match. -/
inductive GameOp where
  | join (conn : Conn) (name : String)
  | leave (conn : Conn)
  | move (p : Player) (rowv colv : Option JVal)
  deriving Repr, DecidableEq

/-- Apply one operation to the match through the corresponding handler; a
rejected operation leaves the game unchanged, and a raised exception runs the
disconnect departure of the moving player. -/
def applyOp (g : Game) : GameOp → Game
  | GameOp.join conn name => joinGame g conn name
  | GameOp.leave conn => (gameLeave g conn "left").1
  | GameOp.move p rowv colv =>
    match handleMove g p rowv colv with
    | MoveRes.errReply _ _ => g
    | MoveRes.raised _ => (gameLeave g p.conn "disconnected").1
    | MoveRes.completed g2 _ => g2

/-- Apply a sequence of join/leave/move operations. -/
def applyOps (g : Game) (ops : List GameOp) : Game :=
  ops.foldl applyOp g

/-- The turn-index invariant of the spec, strengthened for induction with the
fact that an empty match has `turn_index = 0`. -/
def turnInv (g : Game) : Prop :=
  (g.players = [] → g.turn_index = 0) ∧
  (g.players ≠ [] → g.turn_index < g.players.length)

/-- One operation on the match registry: `create_game` with the id its uuid
call produced, or `remove_game`. -/
inductive RegOp where
  | create (freshId : String) (maxp : Nat) (creator : String)
  | remove (id : String)
  deriving Repr, DecidableEq

/-- Apply one registry operation. -/
def applyRegOp (gs : List (String × Game)) : RegOp → List (String × Game)
  | RegOp.create freshId maxp creator =>
    registryInsert gs freshId (create_game maxp creator freshId)
  | RegOp.remove id => registryRemove gs id

/-- Apply a sequence of registry operations to the initially empty registry
of `TicTacToeServer.__init__`. -/
def applyRegOps (ops : List RegOp) : List (String × Game) :=
  ops.foldl applyRegOp []

/-- A winning line in the sense of the spec: a non-empty cell at `(r, c)`
whose two successors in direction `(dr, dc)` are in bounds and hold the same
mark. -/
def winning_line (b : List (List String)) (r c : Nat) (dr dc : Int) (m : String) : Prop :=
  m ≠ " " ∧ r < b.length ∧ c < b.length ∧ getCell b r c = m ∧
  ∀ k ∈ ([1, 2] : List Int),
    in_bounds b.length ((r : Int) + dr * k) ((c : Int) + dc * k) = true ∧
    getCell b ((r : Int) + dr * k).toNat ((c : Int) + dc * k).toNat = m

/-- Fixture: first joiner of a two-player match. -/
def playerX : Player := { conn := 1, name := "alice", mark := "X" }

/-- Fixture: second joiner of a two-player match. -/
def playerO : Player := { conn := 2, name := "bob", mark := "O" }

/-- Fixture: a full two-player match that has just started. -/
def gameRun : Game :=
  { game_id := "G1"
    max_players := 2
    board_size := 3
    creator := "alice"
    players := [playerX, playerO]
    board := emptyBoard 3
    turn_index := 0
    status := "RUNNING" }

/-- Fixture: a waiting two-player match holding only its first joiner. -/
def gameWait1 : Game :=
  { gameRun with players := [playerX], status := "WAITING" }

/-- Fixture: the session of connection 1 while playing in `gameRun`. -/
def sessX : SessionSt :=
  { name_registered := true
    client_name := some "alice"
    current_game := some gameRun
    player := some playerX }

/-- Fixture: the server state while `gameRun` is being played. -/
def srvRun : ServerSt :=
  { games := [("G1", gameRun)], active_names := ["alice", "bob"] }

/-- Fixture: a fresh session that has not yet reserved a name. -/
def sessNew : SessionSt :=
  { name_registered := false, client_name := none, current_game := none, player := none }

/-- Fixture: a running game one move away from a draw, X to play (2, 2). -/
def gameNearDraw : Game :=
  { gameRun with board := [["X", "O", "X"], ["X", "O", "O"], ["O", "X", " "]] }

/-! Helper lemmas about `List.findSome?`, shared by the win-detection proofs. -/

theorem findSome?_cons_of_some {α β : Type} (f : α → Option β) (a : α) (l : List α) (b : β)
    (h : f a = some b) : (a :: l).findSome? f = some b := by
  simp [List.findSome?_cons, h]

theorem findSome?_cons_of_none {α β : Type} (f : α → Option β) (a : α) (l : List α)
    (h : f a = none) : (a :: l).findSome? f = l.findSome? f := by
  simp [List.findSome?_cons, h]

theorem findSome?_eq_none_iff {α β : Type} (f : α → Option β) (l : List α) :
    l.findSome? f = none ↔ ∀ a ∈ l, f a = none := by
  induction l with
  | nil => simp
  | cons a t ih =>
    cases hfa : f a with
    | some b => simp [findSome?_cons_of_some f a t b hfa, hfa]
    | none => simp [findSome?_cons_of_none f a t hfa, ih, hfa]

theorem findSome?_mem_ne_none {α β : Type} (f : α → Option β) (l : List α) (a : α)
    (ha : a ∈ l) (hne : f a ≠ none) : l.findSome? f ≠ none := by
  intro h
  exact hne ((findSome?_eq_none_iff f l).mp h a ha)

theorem exists_of_findSome?_eq_some {α β : Type} (f : α → Option β) (l : List α) (b : β)
    (h : l.findSome? f = some b) : ∃ a ∈ l, f a = some b := by
  induction l with
  | nil => simp [List.findSome?_nil] at h
  | cons a t ih =>
    cases hfa : f a with
    | some c =>
      rw [findSome?_cons_of_some f a t c hfa] at h
      exact ⟨a, List.mem_cons_self a t, by rw [hfa, h]⟩
    | none =>
      rw [findSome?_cons_of_none f a t hfa] at h
      obtain ⟨x, hx, hfx⟩ := ih h
      exact ⟨x, List.mem_cons_of_mem a hx, hfx⟩

theorem findSome?_eq_of_first {α β : Type} (f : α → Option β) (l : List α) :
    ∀ (i : Nat) (h : i < l.length),
      f (l.get ⟨i, h⟩) ≠ none →
      (∀ j (hj : j < l.length), j < i → f (l.get ⟨j, hj⟩) = none) →
      l.findSome? f = f (l.get ⟨i, h⟩) := by
  induction l with
  | nil => intro i h _ _; exact absurd h (by simp)
  | cons a t ih =>
    intro i h hs hb
    cases i with
    | zero =>
      cases hfa : f a with
      | none =>
        rw [show (a :: t).get ⟨0, h⟩ = a from rfl] at hs
        exact absurd hfa hs
      | some b =>
        rw [show (a :: t).get ⟨0, h⟩ = a from rfl, hfa]
        exact findSome?_cons_of_some f a t b hfa
    | succ n =>
      have hfa : f a = none := hb 0 (Nat.succ_pos _) (Nat.succ_pos n)
      rw [findSome?_cons_of_none f a t hfa]
      have hn : n < t.length := Nat.lt_of_succ_lt_succ h
      have hget : (a :: t).get ⟨n + 1, h⟩ = t.get ⟨n, hn⟩ := rfl
      rw [hget] at hs ⊢
      refine ih n hn hs ?_
      intro j hj hji
      exact hb (j + 1) (Nat.succ_lt_succ hj) (Nat.succ_lt_succ hji)

/-! Helper lemmas about the registry. -/

theorem map_keys_overwrite (gs : List (String × Game)) (id : String) (g : Game) :
    ((gs.map fun e => if e.1 == id then (id, g) else e).map Prod.fst) = gs.map Prod.fst := by
  induction gs with
  | nil => rfl
  | cons e t ih =>
    simp only [List.map_cons, ih]
    by_cases he : e.1 = id
    · simp [he]
    · simp [he]

theorem registryInsert_keys_nodup (gs : List (String × Game)) (id : String) (g : Game)
    (hn : (gs.map Prod.fst).Nodup) : ((registryInsert gs id g).map Prod.fst).Nodup := by
  unfold registryInsert
  by_cases h : (gs.any fun e => e.1 == id) = true
  · rw [if_pos h, map_keys_overwrite]
    exact hn
  · rw [if_neg h]
    have hid : id ∉ gs.map Prod.fst := by
      intro hmem
      apply h
      rw [List.any_eq_true]
      obtain ⟨e, he, hfst⟩ := List.mem_map.mp hmem
      exact ⟨e, he, by simp [hfst]⟩
    rw [List.map_append]
    simp only [List.map_cons, List.map_nil]
    rw [List.nodup_append]
    refine ⟨hn, List.nodup_singleton id, ?_⟩
    intro x hx hx2
    simp only [List.mem_singleton] at hx2
    exact hid (hx2 ▸ hx)

theorem registryRemove_keys_nodup (gs : List (String × Game)) (id : String)
    (hn : (gs.map Prod.fst).Nodup) : ((registryRemove gs id).map Prod.fst).Nodup :=
  hn.sublist (List.Sublist.map Prod.fst (List.filter_sublist gs))

theorem applyRegOp_keys_nodup (gs : List (String × Game)) (op : RegOp)
    (hn : (gs.map Prod.fst).Nodup) : ((applyRegOp gs op).map Prod.fst).Nodup := by
  cases op with
  | create freshId maxp creator => exact registryInsert_keys_nodup gs freshId _ hn
  | remove id => exact registryRemove_keys_nodup gs id hn

theorem foldl_applyRegOp_keys_nodup (ops : List RegOp) :
    ∀ gs : List (String × Game),
      (gs.map Prod.fst).Nodup → ((ops.foldl applyRegOp gs).map Prod.fst).Nodup := by
  induction ops with
  | nil => intro gs hn; exact hn
  | cons op t ih =>
    intro gs hn
    exact ih (applyRegOp gs op) (applyRegOp_keys_nodup gs op hn)

/-- C10: a `HELLO` on a connection that already reserved a name is answered
with an `ERR` reply and changes nothing: the session (hence its reserved
name) and the server state (hence the name registry) are returned untouched
and the connection stays open. -/
theorem hello_after_registration_rejected (conn : Conn) (freshId : String)
    (sess : SessionSt) (srv : ServerSt) (name : Option String)
    (h : sess.name_registered = true) :
    clientStep conn freshId sess srv (InMsg.HELLO name) =
      errReply conn sess srv "Name already set." "Continue in lobby (LIST/CREATE/JOIN) or QUIT." := by
  simp [clientStep, h]

/-- Witness for C10 at a concrete registered session. -/
theorem hello_after_registration_rejected_witness :
    clientStep 1 "F" sessX srvRun (InMsg.HELLO (some "carol")) =
      errReply 1 sessX srvRun "Name already set." "Continue in lobby (LIST/CREATE/JOIN) or QUIT." :=
  hello_after_registration_rejected 1 "F" sessX srvRun (some "carol") (by decide)

/-- C3 counterexample: after three joins into a three-player match the marks
are X, O and the two-character string "Î”" stored in the source, which is not
the single letter Delta the claim names. -/
theorem third_mark_is_mojibake :
    (applyOps (create_game 3 "alice" "G3")
        [GameOp.join 1 "alice", GameOp.join 2 "bob", GameOp.join 3 "carol"]).players.map
        Player.mark = ["X", "O", "Î”"] ∧
    ("Î”" : String) ≠ "Δ" := by
  constructor
  · decide
  · decide

/-- C3 amended: `players=2` gives a 3×3 empty board with mark alphabet
["X", "O"]; `players=3` gives a 4×4 empty board with alphabet
["X", "O", "Î”"] (the source file stores the third mark mojibake-encoded);
a successful join appends the alphabet entry indexed by the join order. -/
theorem create_game_sizes_and_marks :
    ∀ creator id : String,
      (create_game 2 creator id).board_size = 3 ∧
      (create_game 2 creator id).board.length = 3 ∧
      (∀ row ∈ (create_game 2 creator id).board, row = List.replicate 3 " ") ∧
      MARKS_BY_COUNT 2 = ["X", "O"] ∧
      (create_game 3 creator id).board_size = 4 ∧
      (create_game 3 creator id).board.length = 4 ∧
      (∀ row ∈ (create_game 3 creator id).board, row = List.replicate 4 " ") ∧
      MARKS_BY_COUNT 3 = ["X", "O", "Î”"] ∧
      (∀ (g : Game) (conn : Conn) (nm : String),
        g.status = "WAITING" → g.players.length < g.max_players →
        (joinGame g conn nm).players.map Player.mark =
          g.players.map Player.mark ++
            [(MARKS_BY_COUNT g.max_players).getD g.players.length ""]) := by
  intro creator id
  refine ⟨rfl, rfl, ?_, rfl, rfl, rfl, ?_, rfl, ?_⟩
  · intro row hrow
    exact List.eq_of_mem_replicate hrow
  · intro row hrow
    exact List.eq_of_mem_replicate hrow
  · intro g conn nm h1 h2
    unfold joinGame handleJoin
    rw [if_neg (by simp [h1]), if_neg (Nat.not_le.mpr h2)]
    by_cases hf : g.players.length + 1 = g.max_players
    · simp [List.length_append, hf]
    · simp [List.length_append, hf]

/-- Witness for C3 amended: the second joiner of a two-player match gets the
mark at index 1 of the two-player alphabet. -/
theorem create_game_sizes_and_marks_witness :
    (joinGame gameWait1 2 "bob").players.map Player.mark =
      gameWait1.players.map Player.mark ++
        [(MARKS_BY_COUNT gameWait1.max_players).getD gameWait1.players.length ""] :=
  (create_game_sizes_and_marks "alice" "G1").2.2.2.2.2.2.2.2 gameWait1 2 "bob"
    (by decide) (by decide)

/-- C8 counterexample: `create_game` draws its id from a truncated uuid and
inserts it with a plain dict assignment, so when the generator repeats a
6-character id the new match silently replaces the registered one: the
second create call allocates the id "AAAAAA" although "AAAAAA" is already
registered, and afterwards that id maps to the second match while the first
match is gone without ever being removed. -/
theorem create_id_collision_overwrites :
    ("AAAAAA" ∈ (applyRegOps [RegOp.create "AAAAAA" 2 "alice"]).map Prod.fst) ∧
    registryGet
        (applyRegOps [RegOp.create "AAAAAA" 2 "alice", RegOp.create "AAAAAA" 2 "bob"])
        "AAAAAA" = some (create_game 2 "bob" "AAAAAA") ∧
    (applyRegOps [RegOp.create "AAAAAA" 2 "alice", RegOp.create "AAAAAA" 2 "bob"]).length
      = 1 := by
  refine ⟨?_, ?_, ?_⟩
  · decide
  · decide
  · decide

/-- C8 amended: registered ids stay pairwise distinct across every sequence
of create and remove operations (they are dict keys), and a create whose
generated id is not currently registered appends a fresh entry; freshness is
not checked, so a colliding generated id overwrites the registered match. -/
theorem registry_ids_unique :
    (∀ ops : List RegOp, ((applyRegOps ops).map Prod.fst).Nodup) ∧
    (∀ (gs : List (String × Game)) (id : String) (g : Game),
      id ∉ gs.map Prod.fst → registryInsert gs id g = gs ++ [(id, g)]) := by
  constructor
  · intro ops
    exact foldl_applyRegOp_keys_nodup ops [] (by simp)
  · intro gs id g hid
    unfold registryInsert
    rw [if_neg ?_]
    intro h
    rw [List.any_eq_true] at h
    obtain ⟨e, he, heq⟩ := h
    rw [beq_iff_eq] at heq
    exact hid (List.mem_map.mpr ⟨e, he, heq⟩)

/-- Witness for C8 amended: inserting a non-registered id appends it. -/
theorem registry_ids_unique_witness :
    registryInsert [] "AAAAAA" (create_game 2 "alice" "AAAAAA") =
      [] ++ [("AAAAAA", create_game 2 "alice" "AAAAAA")] :=
  registry_ids_unique.2 [] "AAAAAA" (create_game 2 "alice" "AAAAAA") (by simp)

/-- C5: removing a player (by `LEAVE` or by disconnect, `verb` being the word
used in the notice) from a match that was WAITING or RUNNING and still has a
player left forces the status to FINISHED and sends exactly one `END` notice
naming the departed player to each remaining player, in roster order; when
the match was already FINISHED the removal sends no notice at all. -/
theorem leave_closes_and_notifies :
    ∀ (g : Game) (conn : Conn) (verb : String),
      ((g.status = "WAITING" ∨ g.status = "RUNNING") →
        (remove_player_from_game g conn).1.players ≠ [] →
        (gameLeave g conn verb).1 =
          { (remove_player_from_game g conn).1 with status := "FINISHED" } ∧
        (gameLeave g conn verb).2 =
          (gameLeave g conn verb).1.players.map fun q2 =>
            (q2.conn,
              OutMsg.END none
                ("Player " ++ (remove_player_from_game g conn).2.getD "player" ++ " " ++ verb ++
                  ". Game ended.")
                (gameLeave g conn verb).1.snapshot)) ∧
      (g.status = "FINISHED" →
        (gameLeave g conn verb).1.status = "FINISHED" ∧ (gameLeave g conn verb).2 = []) := by
  intro g conn verb
  have hs : (remove_player_from_game g conn).1.status = g.status := rfl
  constructor
  · intro h1 h2
    unfold gameLeave
    rw [if_pos ⟨by rw [hs]; exact h1, h2⟩]
    exact ⟨rfl, rfl⟩
  · intro h1
    unfold gameLeave
    rw [if_neg ?_]
    · exact ⟨rfl, rfl⟩
    intro hcond
    rcases hcond.1 with hw | hr
    · rw [hs, h1] at hw
      exact absurd hw (by decide)
    · rw [hs, h1] at hr
      exact absurd hr (by decide)

/-- Witness for C5: the first player leaving the running fixture match. -/
theorem leave_closes_and_notifies_witness :
    (gameLeave gameRun 1 "left").1 =
      { (remove_player_from_game gameRun 1).1 with status := "FINISHED" } ∧
    (gameLeave gameRun 1 "left").2 =
      (gameLeave gameRun 1 "left").1.players.map fun q2 =>
        (q2.conn,
          OutMsg.END none
            ("Player " ++ (remove_player_from_game gameRun 1).2.getD "player" ++ " " ++ "left" ++
              ". Game ended.")
            (gameLeave gameRun 1 "left").1.snapshot) :=
  (leave_closes_and_notifies gameRun 1 "left").1 (Or.inr (by decide)) (by decide)

theorem turnInv_create (mp : Nat) (cr id : String) : turnInv (create_game mp cr id) := by
  constructor
  · intro _; rfl
  · intro h; exact absurd rfl h

theorem turnInv_remove (g : Game) (conn : Conn) : turnInv (remove_player_from_game g conn).1 := by
  unfold turnInv remove_player_from_game
  simp only []
  constructor
  · intro h
    simp [h]
  · intro h
    rw [if_neg (by simpa using h)]
    exact Nat.mod_lt _ (List.length_pos.mpr h)

/-- C7: a `JOIN` that fills the match flips status to RUNNING and resets
`turn_index` to 0 before the one snapshot is taken, so the `JOINED`,
`GAME_UPDATE` and `START` messages produced by that join all carry a snapshot
showing status RUNNING with the full roster. -/
theorem join_fill_runs_before_broadcast :
    ∀ (g : Game) (conn : Conn) (nm : String),
      g.status = "WAITING" →
      g.players.length + 1 = g.max_players →
      (joinGame g conn nm).status = "RUNNING" ∧
      (joinGame g conn nm).turn_index = 0 ∧
      (joinGame g conn nm).players.length = g.max_players ∧
      joinMsgs g conn nm ≠ [] ∧
      ∀ cm ∈ joinMsgs g conn nm,
        stateOf cm.2 = some (joinGame g conn nm).snapshot ∧
        (joinGame g conn nm).snapshot.status = "RUNNING" ∧
        (joinGame g conn nm).snapshot.players.length = g.max_players := by
  intro g conn nm h1 h2
  have hle : ¬ g.max_players ≤ g.players.length := by omega
  unfold joinGame joinMsgs handleJoin
  rw [if_neg (by simp [h1]), if_neg hle]
  simp only [List.length_append, List.length_cons, List.length_nil, Nat.zero_add]
  rw [if_pos h2]
  refine ⟨rfl, rfl, by simpa using h2, ?_, ?_⟩
  · simp
  · intro cm hcm
    rw [if_pos h2] at hcm
    rcases List.mem_cons.mp hcm with hc | hc
    · subst hc
      refine ⟨rfl, rfl, ?_⟩
      simpa [Game.snapshot] using h2
    · rcases List.mem_append.mp hc with hc2 | hc2
      · obtain ⟨q, hq, hqe⟩ := List.mem_map.mp hc2
        subst hqe
        refine ⟨rfl, rfl, ?_⟩
        simpa [Game.snapshot] using h2
      · obtain ⟨q, hq, hqe⟩ := List.mem_map.mp hc2
        subst hqe
        refine ⟨rfl, rfl, ?_⟩
        simpa [Game.snapshot] using h2
theorem turnInv_gameLeave (g : Game) (conn : Conn) (verb : String) :
    turnInv (gameLeave g conn verb).1 := by
  have hr := turnInv_remove g conn
  unfold gameLeave
  simp only []
  split
  · exact hr
  · exact hr

theorem turnInv_join (g : Game) (conn : Conn) (nm : String) (h : turnInv g) :
    turnInv (joinGame g conn nm) := by
  unfold joinGame handleJoin
  by_cases hw : g.status ≠ "WAITING"
  · rw [if_pos hw]; exact h
  · rw [if_neg hw]
    by_cases hle : g.max_players ≤ g.players.length
    · rw [if_pos hle]; exact h
    · rw [if_neg hle]
      simp only []
      unfold turnInv
      split
      · constructor
        · intro _; rfl
        · intro _
          simp [List.length_append]
      · constructor
        · intro hemp
          exact absurd hemp (by simp)
        · intro _
          rcases h with ⟨h0, hlt⟩
          by_cases hgp : g.players = []
          · rw [hgp, h0 hgp]
            simp
          · have := hlt hgp
            simp only [List.length_append, List.length_cons, List.length_nil]
            omega

theorem handleMove_completed_shape (g : Game) (p : Player) (rv cv : Option JVal)
    (g2 : Game) (ms : List (Conn × OutMsg))
    (h : handleMove g p rv cv = MoveRes.completed g2 ms) :
    g2.players = g.players ∧ g.players ≠ [] ∧
    (g2.turn_index = g.turn_index ∨
      g2.turn_index = (g.turn_index + 1) % g.players.length) := by
  unfold handleMove at h
  split at h
  · exact absurd h (by simp)
  · split at h
    · exact absurd h (by simp)
    · rename_i hstatus hemp
      have hne : g.players ≠ [] := by simpa using hemp
      split at h
      · exact absurd h (by simp)
      · split at h
        · exact absurd h (by simp)
        · split at h
          · exact absurd h (by simp)
          · split at h
            · exact absurd h (by simp)
            · split at h
              · exact absurd h (by simp)
              · split at h
                · exact absurd h (by simp)
                · simp only [] at h
                  split at h
                  · rw [MoveRes.completed.injEq] at h
                    obtain ⟨h1, h2⟩ := h
                    subst h1
                    exact ⟨rfl, hne, Or.inl rfl⟩
                  · split at h
                    · rw [MoveRes.completed.injEq] at h
                      obtain ⟨h1, h2⟩ := h
                      subst h1
                      exact ⟨rfl, hne, Or.inl rfl⟩
                    · rw [MoveRes.completed.injEq] at h
                      obtain ⟨h1, h2⟩ := h
                      subst h1
                      exact ⟨rfl, hne, Or.inr rfl⟩

theorem turnInv_move (g : Game) (p : Player) (rv cv : Option JVal) (h : turnInv g) :
    turnInv (applyOp g (GameOp.move p rv cv)) := by
  unfold applyOp
  cases hm : handleMove g p rv cv with
  | errReply m hh => simp only [hm]; exact h
  | raised e => simp only [hm]; exact turnInv_gameLeave g p.conn "disconnected"
  | completed g2 ms =>
    simp only [hm]
    obtain ⟨hp, hne, hti⟩ := handleMove_completed_shape g p rv cv g2 ms hm
    unfold turnInv
    constructor
    · intro hemp
      exact absurd (hp ▸ hemp) hne
    · intro _
      rcases hti with h1 | h1
      · rw [h1, hp]
        exact h.2 hne
      · rw [h1, hp]
        exact Nat.mod_lt _ (List.length_pos.mpr hne)

theorem turnInv_applyOp (g : Game) (op : GameOp) (h : turnInv g) : turnInv (applyOp g op) := by
  cases op with
  | join conn nm => exact turnInv_join g conn nm h
  | leave conn => exact turnInv_gameLeave g conn "left"
  | move p rv cv => exact turnInv_move g p rv cv h

theorem turnInv_applyOps (ops : List GameOp) :
    ∀ g : Game, turnInv g → turnInv (applyOps g ops) := by
  induction ops with
  | nil => intro g h; exact h
  | cons op t ih => intro g h; exact ih (applyOp g op) (turnInv_applyOp g op h)

/-- C1: for every match and every sequence of join, leave and move
operations, whenever the player list is non-empty the turn index is a valid
index into it. -/
theorem turn_index_always_valid :
    ∀ (mp : Nat) (cr id : String) (ops : List GameOp),
      (applyOps (create_game mp cr id) ops).players ≠ [] →
      (applyOps (create_game mp cr id) ops).turn_index <
        (applyOps (create_game mp cr id) ops).players.length := by
  intro mp cr id ops hne
  exact (turnInv_applyOps ops (create_game mp cr id) (turnInv_create mp cr id)).2 hne

theorem turn_index_always_valid_witness :
    (applyOps (create_game 2 "alice" "G1")
        [GameOp.join 1 "alice", GameOp.join 2 "bob"]).players ≠ [] ∧
    (applyOps (create_game 2 "alice" "G1")
        [GameOp.join 1 "alice", GameOp.join 2 "bob"]).turn_index <
      (applyOps (create_game 2 "alice" "G1")
        [GameOp.join 1 "alice", GameOp.join 2 "bob"]).players.length :=
  ⟨by decide,
    turn_index_always_valid 2 "alice" "G1" [GameOp.join 1 "alice", GameOp.join 2 "bob"]
      (by decide)⟩

theorem handleMove_not_running (g : Game) (p : Player) (rv cv : Option JVal)
    (h : g.status ≠ "RUNNING") :
    handleMove g p rv cv =
      MoveRes.errReply "Game not running." "Wait for START or JOIN another game." := by
  unfold handleMove
  rw [if_pos h]

theorem handleMove_not_your_turn (g : Game) (p : Player) (rv cv : Option JVal)
    (h1 : g.status = "RUNNING")
    (h2 : g.players = [] ∨ ∃ q, g.players.get? g.turn_index = some q ∧ q.mark ≠ p.mark) :
    handleMove g p rv cv =
      MoveRes.errReply "Not your turn." "Allowed while waiting: INFO or LEAVE (or QUIT)." := by
  unfold handleMove
  rw [if_neg (by simp [h1])]
  rcases h2 with he | ⟨q, hq, hm⟩
  · rw [if_pos (by simp [he])]
  · have hne : ¬ g.players.isEmpty = true := by
      have := List.get?_eq_some.mp hq
      intro hh
      rw [List.isEmpty_iff] at hh
      rw [hh] at hq
      simp at hq
    rw [if_neg hne]
    simp only [hq]
    rw [if_pos hm]

theorem handleMove_out_of_bounds (g : Game) (p q : Player) (r c : Int)
    (h1 : g.status = "RUNNING")
    (hq : g.players.get? g.turn_index = some q) (hm : q.mark = p.mark)
    (hb : ¬ (0 ≤ r ∧ r < (g.board_size : Int) ∧ 0 ≤ c ∧ c < (g.board_size : Int))) :
    handleMove g p (some (JVal.jnum r)) (some (JVal.jnum c)) =
      MoveRes.errReply "Out of bounds."
        ("Use row/col in range 0.." ++ toString (g.board_size - 1) ++ ".") := by
  unfold handleMove
  rw [if_neg (by simp [h1])]
  have hne : ¬ g.players.isEmpty = true := by
    intro hh
    rw [List.isEmpty_iff] at hh
    rw [hh] at hq
    simp at hq
  rw [if_neg hne]
  simp only [hq, pyInt]
  rw [if_neg (by simp [hm])]
  rw [if_pos hb]

theorem handleMove_cell_taken (g : Game) (p q : Player) (r c : Int)
    (h1 : g.status = "RUNNING")
    (hq : g.players.get? g.turn_index = some q) (hm : q.mark = p.mark)
    (hb : 0 ≤ r ∧ r < (g.board_size : Int) ∧ 0 ≤ c ∧ c < (g.board_size : Int))
    (hc : getCell g.board r.toNat c.toNat ≠ " ") :
    handleMove g p (some (JVal.jnum r)) (some (JVal.jnum c)) =
      MoveRes.errReply "Cell is not empty." "Choose a different empty cell." := by
  unfold handleMove
  rw [if_neg (by simp [h1])]
  have hne : ¬ g.players.isEmpty = true := by
    intro hh
    rw [List.isEmpty_iff] at hh
    rw [hh] at hq
    simp at hq
  rw [if_neg hne]
  simp only [hq, pyInt]
  rw [if_neg (by simp [hm]), if_neg (not_not_intro hb), if_pos hc]

theorem moveStep_err (conn : Conn) (freshId : String) (sess : SessionSt) (srv : ServerSt)
    (g : Game) (p : Player) (rv cv : Option JVal) (m hh : String)
    (hg : sess.current_game = some g) (hp : sess.player = some p)
    (hm : handleMove g p rv cv = MoveRes.errReply m hh) :
    clientStep conn freshId sess srv (InMsg.MOVE rv cv) = errReply conn sess srv m hh := by
  simp only [clientStep, hg, hp, hm]

/-- C4: a `MOVE` that is out of bounds, targets an occupied cell, is out of
turn, or arrives while the match is not RUNNING leaves the session and the
server state exactly as they were (so no match state is mutated) and yields
the single matching `ERR` reply, following the source checking order. -/
theorem move_precondition_errors :
    ∀ (conn : Conn) (freshId : String) (sess : SessionSt) (srv : ServerSt)
      (g : Game) (p : Player) (r c : Int),
      sess.current_game = some g → sess.player = some p →
      (g.status ≠ "RUNNING" →
        clientStep conn freshId sess srv
            (InMsg.MOVE (some (JVal.jnum r)) (some (JVal.jnum c))) =
          errReply conn sess srv "Game not running." "Wait for START or JOIN another game.") ∧
      (g.status = "RUNNING" →
        (g.players = [] ∨ ∃ q, g.players.get? g.turn_index = some q ∧ q.mark ≠ p.mark) →
        clientStep conn freshId sess srv
            (InMsg.MOVE (some (JVal.jnum r)) (some (JVal.jnum c))) =
          errReply conn sess srv "Not your turn."
            "Allowed while waiting: INFO or LEAVE (or QUIT).") ∧
      (∀ q : Player, g.status = "RUNNING" →
        g.players.get? g.turn_index = some q → q.mark = p.mark →
        ¬ (0 ≤ r ∧ r < (g.board_size : Int) ∧ 0 ≤ c ∧ c < (g.board_size : Int)) →
        clientStep conn freshId sess srv
            (InMsg.MOVE (some (JVal.jnum r)) (some (JVal.jnum c))) =
          errReply conn sess srv "Out of bounds."
            ("Use row/col in range 0.." ++ toString (g.board_size - 1) ++ ".")) ∧
      (∀ q : Player, g.status = "RUNNING" →
        g.players.get? g.turn_index = some q → q.mark = p.mark →
        (0 ≤ r ∧ r < (g.board_size : Int) ∧ 0 ≤ c ∧ c < (g.board_size : Int)) →
        getCell g.board r.toNat c.toNat ≠ " " →
        clientStep conn freshId sess srv
            (InMsg.MOVE (some (JVal.jnum r)) (some (JVal.jnum c))) =
          errReply conn sess srv "Cell is not empty." "Choose a different empty cell.") := by
  intro conn freshId sess srv g p r c hg hp
  refine ⟨?_, ?_, ?_, ?_⟩
  · intro h
    exact moveStep_err conn freshId sess srv g p _ _ _ _ hg hp (handleMove_not_running g p _ _ h)
  · intro h1 h2
    exact moveStep_err conn freshId sess srv g p _ _ _ _ hg hp
      (handleMove_not_your_turn g p _ _ h1 h2)
  · intro q h1 hq hm hb
    exact moveStep_err conn freshId sess srv g p _ _ _ _ hg hp
      (handleMove_out_of_bounds g p q r c h1 hq hm hb)
  · intro q h1 hq hm hb hc
    exact moveStep_err conn freshId sess srv g p _ _ _ _ hg hp
      (handleMove_cell_taken g p q r c h1 hq hm hb hc)

theorem move_precondition_errors_witness :
    clientStep 1 "F" sessX srvRun (InMsg.MOVE (some (JVal.jnum 5)) (some (JVal.jnum 0))) =
      errReply 1 sessX srvRun "Out of bounds."
        ("Use row/col in range 0.." ++ toString (gameRun.board_size - 1) ++ ".") :=
  (move_precondition_errors 1 "F" sessX srvRun gameRun playerX 5 0 rfl rfl).2.2.1 playerX
    rfl (by decide) rfl (by decide)
/-- C9: on a successful move the win check runs first; only when it finds no
winner is a full board reported as a draw, an `END` with winner `none` and
message "Draw.", while a found winner ends the game with "Winner: w" even on
a full board. -/
theorem move_win_checked_before_draw :
    ∀ (g : Game) (p q : Player) (r c : Int),
      g.status = "RUNNING" →
      g.players.get? g.turn_index = some q → q.mark = p.mark →
      (0 ≤ r ∧ r < (g.board_size : Int) ∧ 0 ≤ c ∧ c < (g.board_size : Int)) →
      getCell g.board r.toNat c.toNat = " " →
      (check_winner_3_in_row (setCell g.board r.toNat c.toNat p.mark) = none →
        board_full (setCell g.board r.toNat c.toNat p.mark) = true →
        handleMove g p (some (JVal.jnum r)) (some (JVal.jnum c)) =
          MoveRes.completed
            { g with
              board := setCell g.board r.toNat c.toNat p.mark
              status := "FINISHED" }
            (({ g with
                board := setCell g.board r.toNat c.toNat p.mark
                status := "FINISHED" } : Game).players.map fun q2 =>
              (q2.conn,
                OutMsg.END none "Draw."
                  ({ g with
                    board := setCell g.board r.toNat c.toNat p.mark
                    status := "FINISHED" } : Game).snapshot))) ∧
      (∀ w, check_winner_3_in_row (setCell g.board r.toNat c.toNat p.mark) = some w →
        handleMove g p (some (JVal.jnum r)) (some (JVal.jnum c)) =
          MoveRes.completed
            { g with
              board := setCell g.board r.toNat c.toNat p.mark
              status := "FINISHED" }
            (({ g with
                board := setCell g.board r.toNat c.toNat p.mark
                status := "FINISHED" } : Game).players.map fun q2 =>
              (q2.conn,
                OutMsg.END none ("Winner: " ++ w)
                  ({ g with
                    board := setCell g.board r.toNat c.toNat p.mark
                    status := "FINISHED" } : Game).snapshot))) := by
  intro g p q r c h1 hq hm hb hc
  have hne : ¬ g.players.isEmpty = true := by
    intro hh
    rw [List.isEmpty_iff] at hh
    rw [hh] at hq
    simp at hq
  constructor
  · intro hw hf
    unfold handleMove
    rw [if_neg (by simp [h1]), if_neg hne]
    simp only [hq, pyInt]
    rw [if_neg (by simp [hm]), if_neg (not_not_intro hb), if_neg (not_not_intro hc)]
    simp only [hw, hf]
    rfl
  · intro w hw
    unfold handleMove
    rw [if_neg (by simp [h1]), if_neg hne]
    simp only [hq, pyInt]
    rw [if_neg (by simp [hm]), if_neg (not_not_intro hb), if_neg (not_not_intro hc)]
    simp only [hw]
    rfl

theorem move_win_checked_before_draw_witness :
    handleMove gameNearDraw playerX (some (JVal.jnum 2)) (some (JVal.jnum 2)) =
      MoveRes.completed
        { gameNearDraw with
          board := setCell gameNearDraw.board (2 : Int).toNat (2 : Int).toNat playerX.mark
          status := "FINISHED" }
        (({ gameNearDraw with
            board := setCell gameNearDraw.board (2 : Int).toNat (2 : Int).toNat playerX.mark
            status := "FINISHED" } : Game).players.map fun q2 =>
          (q2.conn,
            OutMsg.END none "Draw."
              ({ gameNearDraw with
                board := setCell gameNearDraw.board (2 : Int).toNat (2 : Int).toNat playerX.mark
                status := "FINISHED" } : Game).snapshot)) :=
  (move_win_checked_before_draw gameNearDraw playerX playerX 2 2 rfl rfl rfl (by decide)
      (by decide)).1 (by decide) (by decide)
/-- C6 counterexample: a `MOVE` whose `row` field is missing, sent in a
running match on the turn of the mover, is not answered with an `ERR`: the
`int()` call raises, the connection closes, the only message goes to the
other player, and the server state is mutated (match torn down, name
released). -/
theorem move_missing_row_closes_connection :
    (clientStep 1 "F" sessX srvRun (InMsg.MOVE none (some (JVal.jnum 0)))).connOpen = false ∧
    ((clientStep 1 "F" sessX srvRun (InMsg.MOVE none (some (JVal.jnum 0)))).msgs.all
      fun cm => !(cm.1 == 1 && isErr cm.2)) = true ∧
    (clientStep 1 "F" sessX srvRun (InMsg.MOVE none (some (JVal.jnum 0)))).msgs.map Prod.fst
      = [2] ∧
    (clientStep 1 "F" sessX srvRun (InMsg.MOVE none (some (JVal.jnum 0)))).srv ≠ srvRun := by
  refine ⟨?_, ?_, ?_, ?_⟩
  · decide
  · decide
  · decide
  · decide

/-- C6 amended: every precondition violation of the enumerated taxonomy
(name already set/empty/taken, not registered, already in a match, bad match
size, missing/unknown match id, match not waiting/full, not in a match,
match not running, not your turn, out of bounds, cell occupied, malformed
JSON, unknown type) is answered with exactly one `ERR` reply to the sender,
mutates neither the session nor the server state, and leaves the connection
open. -/
theorem precondition_errors_reply_only :
    ∀ (conn : Conn) (freshId : String) (sess : SessionSt) (srv : ServerSt),
      (∀ name, sess.name_registered = true →
        clientStep conn freshId sess srv (InMsg.HELLO name) =
          errReply conn sess srv "Name already set."
            "Continue in lobby (LIST/CREATE/JOIN) or QUIT.") ∧
      (∀ name, sess.name_registered = false → pyStrip (name.getD "") = "" →
        clientStep conn freshId sess srv (InMsg.HELLO name) =
          errReply conn sess srv "Name cannot be empty." "Enter a non-empty name.") ∧
      (∀ name, sess.name_registered = false → pyStrip (name.getD "") ≠ "" →
        pyStrip (name.getD "") ∈ srv.active_names →
        clientStep conn freshId sess srv (InMsg.HELLO name) =
          errReply conn sess srv "Name already exists." "Please choose a different name.") ∧
      (∀ pv, (sess.name_registered = false ∨ sess.client_name.getD "" = "") →
        clientStep conn freshId sess srv (InMsg.CREATE pv) =
          errReply conn sess srv "You must set a unique name first."
            "Send HELLO with your chosen name.") ∧
      (∀ pv, sess.name_registered = true → sess.client_name.getD "" ≠ "" →
        sess.current_game.isSome = true →
        clientStep conn freshId sess srv (InMsg.CREATE pv) =
          errReply conn sess srv "Already in a game."
            "Use LEAVE to return to lobby, then CREATE again.") ∧
      (∀ n : Int, sess.name_registered = true → sess.client_name.getD "" ≠ "" →
        sess.current_game = none → n ≠ 2 → n ≠ 3 →
        clientStep conn freshId sess srv (InMsg.CREATE (some (JVal.jnum n))) =
          errReply conn sess srv "Only 2 or 3 players supported."
            "Use: CREATE 2  or  CREATE 3") ∧
      (∀ gid, (sess.name_registered = false ∨ sess.client_name.getD "" = "") →
        clientStep conn freshId sess srv (InMsg.JOIN gid) =
          errReply conn sess srv "You must set a unique name first."
            "Send HELLO with your chosen name.") ∧
      (∀ gid, sess.name_registered = true → sess.client_name.getD "" ≠ "" →
        sess.current_game.isSome = true →
        clientStep conn freshId sess srv (InMsg.JOIN gid) =
          errReply conn sess srv "Already in a game."
            "Use LEAVE to return to lobby, then JOIN another game.") ∧
      (∀ gid, sess.name_registered = true → sess.client_name.getD "" ≠ "" →
        sess.current_game = none → gid.getD "" = "" →
        clientStep conn freshId sess srv (InMsg.JOIN gid) =
          errReply conn sess srv "Missing game_id." "Use JOIN <id> (Tip: use LIST).") ∧
      (∀ gid, sess.name_registered = true → sess.client_name.getD "" ≠ "" →
        sess.current_game = none → gid.getD "" ≠ "" →
        registryGet srv.games (gid.getD "") = none →
        clientStep conn freshId sess srv (InMsg.JOIN gid) =
          errReply conn sess srv "Game not found." "Use LIST to get a valid id.") ∧
      (∀ gid g, sess.name_registered = true → sess.client_name.getD "" ≠ "" →
        sess.current_game = none → gid.getD "" ≠ "" →
        registryGet srv.games (gid.getD "") = some g → g.status ≠ "WAITING" →
        clientStep conn freshId sess srv (InMsg.JOIN gid) =
          errReply conn sess srv "Game already started/finished."
            "Use LIST to find a WAITING game.") ∧
      (∀ gid g, sess.name_registered = true → sess.client_name.getD "" ≠ "" →
        sess.current_game = none → gid.getD "" ≠ "" →
        registryGet srv.games (gid.getD "") = some g → g.status = "WAITING" →
        g.max_players ≤ g.players.length →
        clientStep conn freshId sess srv (InMsg.JOIN gid) =
          errReply conn sess srv "Game is full." "Use LIST and join another game.") ∧
      ((sess.current_game = none ∨ sess.player = none) →
        clientStep conn freshId sess srv InMsg.LEAVE =
          errReply conn sess srv "Not in a game." "Use LIST/CREATE/JOIN first.") ∧
      (∀ rv cv, (sess.current_game = none ∨ sess.player = none) →
        clientStep conn freshId sess srv (InMsg.MOVE rv cv) =
          errReply conn sess srv "Not in a game." "JOIN a game first.") ∧
      (∀ rv cv g p, sess.current_game = some g → sess.player = some p →
        g.status ≠ "RUNNING" →
        clientStep conn freshId sess srv (InMsg.MOVE rv cv) =
          errReply conn sess srv "Game not running."
            "Wait for START or JOIN another game.") ∧
      (∀ rv cv g p, sess.current_game = some g → sess.player = some p →
        g.status = "RUNNING" →
        (g.players = [] ∨ ∃ q, g.players.get? g.turn_index = some q ∧ q.mark ≠ p.mark) →
        clientStep conn freshId sess srv (InMsg.MOVE rv cv) =
          errReply conn sess srv "Not your turn."
            "Allowed while waiting: INFO or LEAVE (or QUIT).") ∧
      (∀ (g : Game) (p q : Player) (r c : Int), sess.current_game = some g →
        sess.player = some p → g.status = "RUNNING" →
        g.players.get? g.turn_index = some q → q.mark = p.mark →
        ¬ (0 ≤ r ∧ r < (g.board_size : Int) ∧ 0 ≤ c ∧ c < (g.board_size : Int)) →
        clientStep conn freshId sess srv
            (InMsg.MOVE (some (JVal.jnum r)) (some (JVal.jnum c))) =
          errReply conn sess srv "Out of bounds."
            ("Use row/col in range 0.." ++ toString (g.board_size - 1) ++ ".")) ∧
      (∀ (g : Game) (p q : Player) (r c : Int), sess.current_game = some g →
        sess.player = some p → g.status = "RUNNING" →
        g.players.get? g.turn_index = some q → q.mark = p.mark →
        (0 ≤ r ∧ r < (g.board_size : Int) ∧ 0 ≤ c ∧ c < (g.board_size : Int)) →
        getCell g.board r.toNat c.toNat ≠ " " →
        clientStep conn freshId sess srv
            (InMsg.MOVE (some (JVal.jnum r)) (some (JVal.jnum c))) =
          errReply conn sess srv "Cell is not empty." "Choose a different empty cell.") ∧
      (clientStep conn freshId sess srv InMsg.BAD_JSON =
        errReply conn sess srv "Bad message format (invalid JSON)." "Try again.") ∧
      (∀ t, clientStep conn freshId sess srv (InMsg.UNKNOWN t) =
        errReply conn sess srv ("Unknown type " ++ t)
          "Use LIST/CREATE/JOIN/MOVE/LEAVE/QUIT.") := by
  intro conn freshId sess srv
  refine ⟨?_, ?_, ?_, ?_, ?_, ?_, ?_, ?_, ?_, ?_, ?_, ?_, ?_, ?_, ?_, ?_, ?_, ?_, ?_, ?_⟩
  · intro name h
    simp [clientStep, h]
  · intro name h h2
    simp [clientStep, h, h2]
  · intro name h h2 h3
    simp [clientStep, h, h2, h3]
  · intro pv h
    rcases h with h | h
    · simp [clientStep, h]
    · simp only [clientStep]
      rw [if_pos (Or.inr h)]
  · intro pv hr hn hg
    simp only [clientStep]
    rw [if_neg (by simp [hr, hn]), if_pos hg]
  · intro n hr hn hg h2 h3
    simp only [clientStep]
    rw [if_neg (by simp [hr, hn]), if_neg (by simp [hg])]
    simp only [pyIntD, pyInt]
    rw [if_pos ⟨h2, h3⟩]
  · intro gid h
    rcases h with h | h
    · simp [clientStep, h]
    · simp only [clientStep]
      rw [if_pos (Or.inr h)]
  · intro gid hr hn hg
    simp only [clientStep]
    rw [if_neg (by simp [hr, hn]), if_pos hg]
  · intro gid hr hn hg h2
    simp only [clientStep]
    rw [if_neg (by simp [hr, hn]), if_neg (by simp [hg]), if_pos h2]
  · intro gid hr hn hg h2 h3
    simp only [clientStep]
    rw [if_neg (by simp [hr, hn]), if_neg (by simp [hg]), if_neg h2]
    simp only [h3]
  · intro gid g hr hn hg h2 h3 h4
    simp only [clientStep]
    rw [if_neg (by simp [hr, hn]), if_neg (by simp [hg]), if_neg h2]
    simp only [h3]
    unfold handleJoin
    rw [if_pos h4]
  · intro gid g hr hn hg h2 h3 h4 h5
    simp only [clientStep]
    rw [if_neg (by simp [hr, hn]), if_neg (by simp [hg]), if_neg h2]
    simp only [h3]
    unfold handleJoin
    rw [if_neg (by simp [h4]), if_pos h5]
  · intro h
    rcases h with h | h
    · simp [clientStep, h]
    · cases hc : sess.current_game with
      | none => simp [clientStep, hc]
      | some g => simp [clientStep, hc, h]
  · intro rv cv h
    rcases h with h | h
    · simp [clientStep, h]
    · cases hc : sess.current_game with
      | none => simp [clientStep, hc]
      | some g => simp [clientStep, hc, h]
  · intro rv cv g p hg hp h
    exact moveStep_err conn freshId sess srv g p _ _ _ _ hg hp
      (handleMove_not_running g p _ _ h)
  · intro rv cv g p hg hp h1 h2
    exact moveStep_err conn freshId sess srv g p _ _ _ _ hg hp
      (handleMove_not_your_turn g p _ _ h1 h2)
  · intro g p q r c hg hp h1 hq hm hb
    exact moveStep_err conn freshId sess srv g p _ _ _ _ hg hp
      (handleMove_out_of_bounds g p q r c h1 hq hm hb)
  · intro g p q r c hg hp h1 hq hm hb hcell
    exact moveStep_err conn freshId sess srv g p _ _ _ _ hg hp
      (handleMove_cell_taken g p q r c h1 hq hm hb hcell)
  · simp [clientStep]
  · intro t
    simp [clientStep]

theorem precondition_errors_reply_only_witness :
    clientStep 3 "F" sessNew srvRun (InMsg.HELLO (some "alice")) =
      errReply 3 sessNew srvRun "Name already exists." "Please choose a different name." :=
  (precondition_errors_reply_only 3 "F" sessNew srvRun).2.2.1 (some "alice") rfl
    (by decide) (by decide)
theorem get_range_eq (n i : Nat) (h : i < (List.range n).length) :
    (List.range n).get ⟨i, h⟩ = i := by
  simp

theorem lineOk_iff (b : List (List String)) (n : Nat) (m : String) (r c : Nat) (dr dc : Int) :
    lineOk b n m r c dr dc = true ↔
      ∀ k ∈ ([1, 2] : List Int),
        in_bounds n ((r : Int) + dr * k) ((c : Int) + dc * k) = true ∧
        getCell b ((r : Int) + dr * k).toNat ((c : Int) + dc * k).toNat = m := by
  unfold lineOk
  rw [List.all_eq_true]
  constructor
  · intro h k hk
    have hh := h k hk
    rw [Bool.and_eq_true, beq_iff_eq] at hh
    exact hh
  · intro h k hk
    rw [Bool.and_eq_true, beq_iff_eq]
    exact h k hk

theorem cellScan_eq_some_iff (b : List (List String)) (n : Nat) (r c : Nat) (m : String) :
    cellScan b n r c = some m ↔
      getCell b r c = m ∧ m ≠ " " ∧
        ∃ d ∈ directions, lineOk b n m r c d.1 d.2 = true := by
  unfold cellScan
  by_cases he : getCell b r c = " "
  · rw [if_pos he]
    constructor
    · intro h
      exact absurd h (by simp)
    · rintro ⟨h1, h2, _⟩
      rw [h1] at he
      exact absurd he h2
  · rw [if_neg he]
    constructor
    · intro h
      obtain ⟨d, hd, hde⟩ := exists_of_findSome?_eq_some _ _ _ h
      by_cases hl : lineOk b n (getCell b r c) r c d.1 d.2 = true
      · rw [if_pos hl] at hde
        have hm : getCell b r c = m := Option.some.inj hde
        exact ⟨hm, hm ▸ he, d, hd, hm ▸ hl⟩
      · rw [if_neg hl] at hde
        exact absurd hde (by simp)
    · rintro ⟨h1, h2, d, hd, hl⟩
      subst h1
      have hnn :
          (directions.findSome? fun d2 =>
            if lineOk b n (getCell b r c) r c d2.1 d2.2 then some (getCell b r c)
            else none) ≠ none := by
        apply findSome?_mem_ne_none _ _ d hd
        rw [if_pos hl]
        simp
      cases hfs :
          (directions.findSome? fun d2 =>
            if lineOk b n (getCell b r c) r c d2.1 d2.2 then some (getCell b r c)
            else none) with
      | none => exact absurd hfs hnn
      | some x =>
        obtain ⟨d2, hd2, hde2⟩ := exists_of_findSome?_eq_some _ _ _ hfs
        by_cases hl2 : lineOk b n (getCell b r c) r c d2.1 d2.2 = true
        · rw [if_pos hl2] at hde2
          rw [Option.some.inj hde2]
        · rw [if_neg hl2] at hde2
          exact absurd hde2 (by simp)

theorem check_winner_sound (b : List (List String)) (m : String)
    (h : check_winner_3_in_row b = some m) :
    ∃ r c dr dc, (dr, dc) ∈ directions ∧ winning_line b r c dr dc m := by
  unfold check_winner_3_in_row at h
  obtain ⟨r, hr, hrow⟩ := exists_of_findSome?_eq_some _ _ _ h
  obtain ⟨c, hc, hcell⟩ := exists_of_findSome?_eq_some _ _ _ hrow
  rw [cellScan_eq_some_iff] at hcell
  obtain ⟨h1, h2, d, hd, hl⟩ := hcell
  refine ⟨r, c, d.1, d.2, by simpa using hd, ?_⟩
  unfold winning_line
  refine ⟨h2, List.mem_range.mp hr, List.mem_range.mp hc, h1, ?_⟩
  rw [lineOk_iff] at hl
  exact hl

theorem check_winner_complete (b : List (List String)) (r c : Nat) (dr dc : Int) (m : String)
    (hd : (dr, dc) ∈ directions) (hw : winning_line b r c dr dc m) :
    check_winner_3_in_row b ≠ none := by
  obtain ⟨h2, hrn, hcn, h1, hk⟩ := hw
  unfold check_winner_3_in_row
  apply findSome?_mem_ne_none _ _ r (List.mem_range.mpr hrn)
  apply findSome?_mem_ne_none _ _ c (List.mem_range.mpr hcn)
  have hcs : cellScan b b.length r c = some m :=
    (cellScan_eq_some_iff b b.length r c m).mpr
      ⟨h1, h2, ⟨(dr, dc), hd, (lineOk_iff b b.length m r c dr dc).mpr hk⟩⟩
  rw [hcs]
  simp

theorem check_winner_first (b : List (List String)) (r c : Nat)
    (hr : r < b.length) (hc : c < b.length)
    (hs : cellScan b b.length r c ≠ none)
    (hb : ∀ r2 c2, r2 < b.length → c2 < b.length →
      (r2 < r ∨ (r2 = r ∧ c2 < c)) → cellScan b b.length r2 c2 = none) :
    check_winner_3_in_row b = cellScan b b.length r c := by
  unfold check_winner_3_in_row
  have hrlen : r < (List.range b.length).length := by simpa using hr
  have hclen : c < (List.range b.length).length := by simpa using hc
  have hrow :
      ((List.range b.length).findSome? fun c2 => cellScan b b.length r c2) =
        cellScan b b.length r c := by
    have hfirst := findSome?_eq_of_first (fun c2 => cellScan b b.length r c2)
      (List.range b.length) c hclen ?_ ?_
    · rw [get_range_eq] at hfirst
      exact hfirst
    · rw [get_range_eq]
      exact hs
    · intro j hj hjc
      rw [get_range_eq]
      exact hb r j hr (by simpa using hj) (Or.inr ⟨rfl, hjc⟩)
  have houter := findSome?_eq_of_first
    (fun r2 => (List.range b.length).findSome? fun c2 => cellScan b b.length r2 c2)
    (List.range b.length) r hrlen ?_ ?_
  · rw [get_range_eq] at houter
    exact houter.trans hrow
  · rw [get_range_eq]
    intro hnone
    exact hs (hrow.symm.trans hnone)
  · intro j hj hjr
    rw [get_range_eq]
    exact (findSome?_eq_none_iff _ _).mpr fun c2 hc2 =>
      hb j c2 (by simpa using hj) (List.mem_range.mp hc2) (Or.inl hjr)

/-- C2: win detection, characterized three ways plus the concrete example:
a returned mark always comes from a bounds-checked directed line of three
consecutive equal non-empty cells in one of the four scan directions
(soundness); whenever such a line exists a winner is returned
(completeness); the scan is position-major, returning the hit of the first
cell in row-major order whose line check fires; and the 3x3 board with X
across the top row yields winner X. -/
theorem check_winner_characterization :
    (∀ (b : List (List String)) (m : String),
        check_winner_3_in_row b = some m →
        ∃ r c dr dc, (dr, dc) ∈ directions ∧ winning_line b r c dr dc m) ∧
    (∀ (b : List (List String)) (r c : Nat) (dr dc : Int) (m : String),
        (dr, dc) ∈ directions → winning_line b r c dr dc m →
        check_winner_3_in_row b ≠ none) ∧
    (∀ (b : List (List String)) (r c : Nat),
        r < b.length → c < b.length →
        cellScan b b.length r c ≠ none →
        (∀ r2 c2, r2 < b.length → c2 < b.length →
          (r2 < r ∨ (r2 = r ∧ c2 < c)) → cellScan b b.length r2 c2 = none) →
        check_winner_3_in_row b = cellScan b b.length r c) ∧
    check_winner_3_in_row [["X", "X", "X"], [" ", " ", " "], [" ", " ", " "]] = some "X" :=
  ⟨check_winner_sound, check_winner_complete, check_winner_first, by decide⟩

theorem check_winner_characterization_witness :
    check_winner_3_in_row [["O", " ", "X"], ["O", "X", " "], ["O", " ", " "]] ≠ none :=
  check_winner_characterization.2.1 [["O", " ", "X"], ["O", "X", " "], ["O", " ", " "]]
    0 0 1 0 "O" (by decide) (by unfold winning_line; decide)
/-- Witness for C7: the second joiner fills the two-player fixture match. -/
theorem join_fill_runs_before_broadcast_witness :
    (joinGame gameWait1 2 "bob").status = "RUNNING" ∧
    (joinGame gameWait1 2 "bob").turn_index = 0 ∧
    (joinGame gameWait1 2 "bob").players.length = gameWait1.max_players :=
  have h := join_fill_runs_before_broadcast gameWait1 2 "bob" (by decide) (by decide)
  ⟨h.1, h.2.1, h.2.2.1⟩

end NetProject
